import Mathlib

/-!
Shallow embedding of `src/watcher.py` (the "zealot" issue watcher).

Python values are modelled explicitly: a JSON dictionary field `d.get(k)`
becomes an `Option` field; Python truthiness (`x or y`) is modelled by
dedicated `pyOr...` helpers that treat `None`, `""`, `0`, `[]`, `{}` as
falsy; fallible code returns `Except`.  Machine integers in the source are
Python's unbounded ints, so `Int`/`Nat` are exact models.
-/

namespace Zealot

/-- ASCII lower-casing of a character, modelling Python `str.lower` on the
ASCII range (the only range the source ever compares against). -/
def charLower (c : Char) : Char :=
  if 'A' ≤ c ∧ c ≤ 'Z' then Char.ofNat (c.toNat + 32) else c

/-- `s.lower()` of Python, restricted to ASCII case mapping. -/
def pyLower (s : String) : String :=
  String.mk (s.data.map charLower)

/-- Python truthiness of an optional string: `None` and `""` are falsy. -/
def truthyS (o : Option String) : Bool :=
  match o with
  | some s => s ≠ ""
  | none => false

/-- Python `a or b` where `a` is an optional string and `b` a string:
falsy (`None` / `""`) falls through to `b`. -/
def pyOrStr (o : Option String) (b : String) : String :=
  match o with
  | some s => if s = "" then b else s
  | none => b

/-- Python `a or b` for optional ints with default int: `None` and `0`
are falsy and fall through to `b`. -/
def pyOrI (o : Option Int) (b : Int) : Int :=
  match o with
  | some v => if v = 0 then b else v
  | none => b

/-- `sep.join(parts)` of Python. -/
def joinSep (sep : String) : List String → String
  | [] => ""
  | [x] => x
  | x :: y :: rest => x ++ sep ++ joinSep sep (y :: rest)

/-- Helper for `str.split(sep)` with a one-character separator:
accumulates the current field (reversed) while scanning. -/
def splitCharAux (sep : Char) : List Char → List Char → List String
  | [], acc => [String.mk acc.reverse]
  | c :: cs, acc =>
    if c = sep then String.mk acc.reverse :: splitCharAux sep cs []
    else splitCharAux sep cs (c :: acc)

/-- Python `s.split(sep)` for a one-character separator (`""` splits to
`[""]`, exactly as in Python). -/
def pySplit (s : String) (sep : Char) : List String :=
  splitCharAux sep s.data []

/-- Python `l[-2:]`: the last two elements (the whole list when shorter). -/
def lastTwo {α : Type} (l : List α) : List α :=
  l.drop (l.length - 2)

/-- Python `s[:n]` on a string (character slice). -/
def pyTake (s : String) (n : Nat) : String :=
  String.mk (s.data.take n)

/-! ## Configuration resolution (watcher.py lines 37-47)

`read_json(path, default)` returns the parsed file when it exists and the
supplied default dictionary otherwise.  Only the `interval_minutes` /
`max_results` fields matter for the effective-settings computation, so the
configuration documents are modelled by those two optional fields. -/

/-- A configuration document, restricted to the two numeric fields the
effective-settings resolution (`INTERVAL_MIN` / `MAX_RESULTS`) reads. -/
structure CfgDoc where
  interval_minutes : Option Int
  max_results : Option Int
deriving DecidableEq, Repr

/-- Default dictionary passed to `read_json` for `config.json`
(line 43): `{"queries": [], "interval_minutes": 30, "max_results": 100}`. -/
def defaultCfgA : CfgDoc := { interval_minutes := some 30, max_results := some 100 }

/-- Default dictionary passed to `read_json` for `targets.json`
(line 44): `{..., "interval_minutes": 30, "max_results": 100}`. -/
def defaultCfgB : CfgDoc := { interval_minutes := some 30, max_results := some 100 }

/-- `read_json(path, default)` (lines 37-41): the file's content when the
file exists, the default dictionary otherwise. -/
def read_json (file : Option CfgDoc) (dflt : CfgDoc) : CfgDoc :=
  file.getD dflt

/-- Line 46: `int(os.getenv("INTERVAL_MIN") or cfgA.get("interval_minutes")
or cfgB.get("interval_minutes") or 30)`.  The environment override is
modelled as `Option Int`: a set, non-empty numeric string is truthy (even
`"0"`), unset or empty is falsy. -/
def INTERVAL_MIN (envIM : Option Int) (fileA fileB : Option CfgDoc) : Int :=
  match envIM with
  | some v => v
  | none =>
    pyOrI (read_json fileA defaultCfgA).interval_minutes
      (pyOrI (read_json fileB defaultCfgB).interval_minutes 30)

/-- Line 47: `int(os.getenv("MAX_RESULTS") or cfgA.get("max_results") or
cfgB.get("max_results") or 100)`. -/
def MAX_RESULTS (envMR : Option Int) (fileA fileB : Option CfgDoc) : Int :=
  match envMR with
  | some v => v
  | none =>
    pyOrI (read_json fileA defaultCfgA).max_results
      (pyOrI (read_json fileB defaultCfgB).max_results 100)

/-- Modelled from the spec, amended: the precedence the code actually
implements.  Run override first; else, if Document A is absent, its
injected default (which coincides with the hard default) masks Document B;
else Document A's value when present and non-zero; else Document B's value
when the B file is present and the value non-zero; else the hard default. -/
def resolve_amended (envVal : Option Int) (fileA fileB : Option CfgDoc)
    (field : CfgDoc → Option Int) (hard : Int) : Int :=
  let fromB : Int :=
    match fileB with
    | none => hard
    | some db =>
      match field db with
      | some w => if w = 0 then hard else w
      | none => hard
  match envVal with
  | some v => v
  | none =>
    match fileA with
    | none => hard
    | some da =>
      match field da with
      | some v => if v = 0 then fromB else v
      | none => fromB

/-! ## Linked-work check (`issue_has_open_linked_pr`, lines 96-127)

The network interaction is an oracle `pages : Nat → PageResult`; a page is
either `fail` (transport error, HTTP status ≥ 400, or a body that fails
JSON decoding — the three cases the source maps to `return False`) or a
successfully parsed JSON document of **arbitrary** shape.  The event-scanning
loop sits *outside* the source's `try`, so its Python runtime errors
(`AttributeError` / `TypeError` on unexpectedly shaped data) propagate;
they are modelled by `Except PyErr`. -/

/-- A parsed JSON value, as `resp.json()` can return it. -/
inductive Json where
  | null
  | bool (b : Bool)
  | num (n : Int)
  | str (s : String)
  | arr (elems : List Json)
  | obj (fields : List (String × Json))
deriving Repr

/-- Python runtime errors the timeline scan can raise. -/
inductive PyErr where
  | attributeError
  | typeError
deriving DecidableEq, Repr

/-- Python truthiness of a JSON value. -/
def pyTruthy : Json → Bool
  | .null => false
  | .bool b => b
  | .num n => n ≠ 0
  | .str s => s ≠ ""
  | .arr l => !l.isEmpty
  | .obj l => !l.isEmpty

/-- `d.get(k)`: `AttributeError` unless the receiver is a dict. -/
def jsonGet (j : Json) (k : String) : Except PyErr (Option Json) :=
  match j with
  | .obj fields => .ok (fields.lookup k)
  | _ => .error .attributeError

/-- Python `x or d` on an optional JSON value (the `.get(...) or {}`
idiom): falsy values, including `None` from a missing key, become `d`. -/
def pyOrJson (o : Option Json) (d : Json) : Json :=
  match o with
  | some v => if pyTruthy v then v else d
  | none => d

/-- Python `x == s` between an optional JSON value and a string literal:
true only for an equal string (comparison with `None` or a non-string
value is simply unequal, never an error). -/
def pyEqStr (o : Option Json) (s : String) : Bool :=
  match o with
  | some (.str t) => t = s
  | _ => false

/-- Whether the first character list begins the second. -/
def startsWithChars : List Char → List Char → Bool
  | [], _ => true
  | _ :: _, [] => false
  | a :: as, b :: bs => a = b && startsWithChars as bs

/-- Contiguous-substring test on character lists. -/
def containsSub (needle : List Char) : List Char → Bool
  | [] => needle.isEmpty
  | c :: rest => startsWithChars needle (c :: rest) || containsSub needle rest

/-- Substring test used by Python `k in s` on strings. -/
def strContainsSub (hay needle : String) : Bool :=
  containsSub needle.data hay.data

/-- Python `k in j` for a string key `k`: key lookup for a dict, substring
test for a string, membership for a list; `TypeError` otherwise. -/
def pyIn (k : String) (j : Json) : Except PyErr Bool :=
  match j with
  | .obj fields => .ok (fields.any (fun f => f.1 = k))
  | .str s => .ok (strContainsSub s k)
  | .arr elems => .ok (elems.any (fun e => pyEqStr (some e) k))
  | _ => .error .typeError

/-- Python `v.lower()` on a JSON value: only strings have `.lower`;
anything else raises `AttributeError`. -/
def pyLowerJ (j : Json) : Except PyErr String :=
  match j with
  | .str s => .ok (pyLower s)
  | _ => .error .attributeError

/-- Python `for x in j`: iterates list elements, dict keys, or the
characters of a string; `TypeError` otherwise. -/
def pyIter (j : Json) : Except PyErr (List Json) :=
  match j with
  | .arr elems => .ok elems
  | .obj fields => .ok (fields.map (fun f => .str f.1))
  | .str s => .ok (s.data.map (fun c => .str (String.mk [c])))
  | _ => .error .typeError

/-- Python `len(j)`. -/
def pyLen (j : Json) : Except PyErr Nat :=
  match j with
  | .arr elems => .ok elems.length
  | .obj fields => .ok fields.length
  | .str s => .ok s.length
  | _ => .error .typeError

/-- The event loop of `issue_has_open_linked_pr` (lines 114-121): scans a
page's events for a `cross-referenced` event whose source issue is a pull
request in the `open` state.  Errors arise exactly where the Python
runtime would raise, since this loop is outside the source's `try`. -/
def scan_events : List Json → Except PyErr Bool
  | [] => .ok false
  | ev :: rest => do
    let evt ← jsonGet ev "event"
    if ¬ pyEqStr evt "cross-referenced" then
      scan_events rest
    else do
      let s0 ← jsonGet ev "source"
      let source := pyOrJson s0 (.obj [])
      let i0 ← jsonGet source "issue"
      let src_issue := pyOrJson i0 (.obj [])
      let hasPR ← pyIn "pull_request" src_issue
      if hasPR then do
        let st0 ← jsonGet src_issue "state"
        let stl ← pyLowerJ (pyOrJson st0 (.str ""))
        if stl = "open" then .ok true else scan_events rest
      else
        scan_events rest

/-- One page of the timeline endpoint, as the source distinguishes
outcomes: `fail` covers a transport exception, an HTTP status ≥ 400, and a
body that fails JSON decoding (all three make the check return `False`);
`ok` carries a successfully parsed body of arbitrary shape. -/
inductive PageResult where
  | fail
  | ok (data : Json)

/-- The `while page <= TIMELINE_MAX_PAGES` loop of
`issue_has_open_linked_pr` (lines 103-125), with `remaining` the number of
page indices left to visit and `page` the current index. -/
def issue_has_open_linked_pr_from (pages : Nat → PageResult) (per_page : Nat) :
    Nat → Nat → Except PyErr Bool
  | 0, _ => .ok false
  | r + 1, page =>
    match pages page with
    | .fail => .ok false
    | .ok data => do
      let evs ← pyIter data
      let found ← scan_events evs
      if found then .ok true
      else do
        let n ← pyLen data
        if n < per_page then .ok false
        else issue_has_open_linked_pr_from pages per_page r (page + 1)

/-- `issue_has_open_linked_pr` (lines 96-127): paging starts at 1 with
`per_page = 100`, bounded by `TIMELINE_MAX_PAGES`. -/
def issue_has_open_linked_pr (TIMELINE_MAX_PAGES : Nat) (pages : Nat → PageResult) :
    Except PyErr Bool :=
  issue_has_open_linked_pr_from pages 100 TIMELINE_MAX_PAGES 1

/-! ## Data model of a search item

The fields of a GitHub search-result item that `main` and the renderers
access.  `.get` accesses become `Option` fields (`none` models a missing
or `null` key); `it["repository_url"]` is a direct index, so that field is
required. -/

/-- A label dictionary: `{"name": ..., "color": ...}`. -/
structure Label where
  name : Option String
  color : Option String
deriving DecidableEq, Repr

/-- An assignee dictionary: `{"login": ...}`. -/
structure Assignee where
  login : Option String
deriving DecidableEq, Repr

/-- A search-result issue item. -/
structure Item where
  number : Option Int
  title : Option String
  html_url : Option String
  repository_url : String
  state : Option String
  labels : List Label
  assignees : Option (List Assignee)
  created_at : Option String
  updated_at : Option String
deriving DecidableEq, Repr

/-- A UTC timestamp, as `datetime.strptime(s, "%Y-%m-%dT%H:%M:%SZ")`
produces it. -/
structure Ts where
  y : Nat
  mo : Nat
  d : Nat
  h : Nat
  mi : Nat
  s : Nat
deriving DecidableEq, Repr

/-- Lexicographic `datetime` comparison. -/
def tsLt (a b : Ts) : Bool :=
  if a.y ≠ b.y then a.y < b.y
  else if a.mo ≠ b.mo then a.mo < b.mo
  else if a.d ≠ b.d then a.d < b.d
  else if a.h ≠ b.h then a.h < b.h
  else if a.mi ≠ b.mi then a.mi < b.mi
  else a.s < b.s

/-- Decimal digit value of a character, when it is a digit. -/
def digitVal (c : Char) : Option Nat :=
  if '0' ≤ c ∧ c ≤ '9' then some (c.toNat - 48) else none

/-- Value of a fixed run of decimal digits, `none` on any non-digit. -/
def digitsVal (acc : Nat) : List Char → Option Nat
  | [] => some acc
  | c :: cs =>
    match digitVal c with
    | some d => digitsVal (acc * 10 + d) cs
    | none => none

/-- The slice `l[a:b]` of a character list. -/
def slice (l : List Char) (a b : Nat) : List Char :=
  (l.drop a).take (b - a)

/-- Whether position `i` of `l` holds exactly the character `c`. -/
def charAt (l : List Char) (i : Nat) (c : Char) : Bool :=
  l.get? i = some c

/-- `datetime.strptime(upd, "%Y-%m-%dT%H:%M:%SZ")` (line 288): parses the
canonical zero-padded form and validates field ranges (strptime accepts
seconds up to 61); any other shape fails, which the source treats as the
timestamp passing the window re-check. -/
def parse_ts (str : String) : Option Ts :=
  let cs := str.data
  match digitsVal 0 (slice cs 0 4), digitsVal 0 (slice cs 5 7),
      digitsVal 0 (slice cs 8 10), digitsVal 0 (slice cs 11 13),
      digitsVal 0 (slice cs 14 16), digitsVal 0 (slice cs 17 19) with
  | some y, some mo, some d, some h, some mi, some s =>
    if cs.length = 20 ∧ charAt cs 4 '-' ∧ charAt cs 7 '-' ∧ charAt cs 10 'T'
        ∧ charAt cs 13 ':' ∧ charAt cs 16 ':' ∧ charAt cs 19 'Z'
        ∧ 1 ≤ mo ∧ mo ≤ 12 ∧ 1 ≤ d ∧ d ≤ 31 ∧ h ≤ 23 ∧ mi ≤ 59 ∧ s ≤ 61
    then some { y := y, mo := mo, d := d, h := h, mi := mi, s := s }
    else none
  | _, _, _, _, _, _ => none

/-! ## The aggregation loop of `main` (lines 263-320) -/

/-- A query dictionary: `{"name": ..., "q": ...}`; `q["q"]` is a direct
index in the source, `q.get("name")` is optional. -/
structure Query where
  name : Option String
  q : String
deriving DecidableEq, Repr

/-- `"/".join(it["repository_url"].split("/")[-2:])` (lines 300, 314). -/
def repo_of (it : Item) : String :=
  joinSep "/" (lastTwo (pySplit it.repository_url '/'))

/-- Append an item under a repository key, creating the key at the end on
first use (the `defaultdict(list)` append of line 315). -/
def addToRepoMap (m : List (String × List Item)) (repo : String) (it : Item) :
    List (String × List Item) :=
  match m with
  | [] => [(repo, [it])]
  | (r, its) :: rest =>
    if r = repo then (r, its ++ [it]) :: rest
    else (r, its) :: addToRepoMap rest repo it

/-- The grouped report: query name → repository → kept items, in
insertion order (a `defaultdict(lambda: defaultdict(list))`). -/
abbrev Grouped := List (String × List (String × List Item))

/-- Append an item under query and repository keys (line 315). -/
def addToGrouped (g : Grouped) (qname repo : String) (it : Item) : Grouped :=
  match g with
  | [] => [(qname, [(repo, [it])])]
  | (q0, m) :: rest =>
    if q0 = qname then (q0, addToRepoMap m repo it) :: rest
    else (q0, m) :: addToGrouped rest qname repo it

/-- Python dict assignment `d[k] = v`, preserving insertion order. -/
def assocSet (m : List (String × Nat)) (k : String) (v : Nat) : List (String × Nat) :=
  match m with
  | [] => [(k, v)]
  | (k0, v0) :: rest =>
    if k0 = k then (k, v) :: rest
    else (k0, v0) :: assocSet rest k v

/-- Python dict lookup `d.get(k)`. -/
def assocGet {α : Type} (m : List (String × α)) (k : String) : Option α :=
  match m with
  | [] => none
  | (k0, v0) :: rest => if k0 = k then some v0 else assocGet rest k

/-- State threaded through the per-item loop of `main`: the run-global
budget counter and grouped report, plus the query-local de-dup set and
kept count.  `invocations` and `kept_items` are instrumentation for the
statements: `invocations` counts calls of the linked-work filter,
`kept_items` records the kept items of the current query in order. -/
structure LoopSt where
  timeline_checks : Nat
  invocations : Nat
  grouped : Grouped
  seen_urls : List String
  kept : Nat
  kept_items : List Item
deriving Repr

/-- Step 1 of the per-item filters (lines 285-291): discard when the
update timestamp parses and is strictly older than `since`; a missing or
malformed timestamp passes. -/
def older_than_window (since : Ts) (it : Item) : Bool :=
  match it.updated_at with
  | some upd =>
    match parse_ts upd with
    | some t => tsLt t since
    | none => false
  | none => false

/-- The linked-PR step (lines 299-307).  Returns the updated state and
whether the item is skipped.  When the filter flag is `"1"` and budget
remains the check is invoked; a `True` result increments the counter
twice — once at line 304 and once more when `continue` runs the `finally`
at line 307 — while a `False` result increments it once via `finally`. -/
def linked_pr_step (FILTER_LINKED_PR : String) (MAX_TIMELINE_CHECKS : Nat)
    (check : String → Option Int → Bool) (st : LoopSt) (it : Item) : LoopSt × Bool :=
  if FILTER_LINKED_PR = "1" ∧ st.timeline_checks < MAX_TIMELINE_CHECKS then
    if check (repo_of it) it.number then
      ({ st with timeline_checks := st.timeline_checks + 2,
                 invocations := st.invocations + 1 }, true)
    else
      ({ st with timeline_checks := st.timeline_checks + 1,
                 invocations := st.invocations + 1 }, false)
  else (st, false)

/-- The keep step (lines 309-316): discard on a falsy or already-seen
URL; otherwise record the URL, append to the grouped report, and count. -/
def keep_step (qname : String) (st : LoopSt) (it : Item) : LoopSt :=
  match it.html_url with
  | none => st
  | some url =>
    if url = "" then st
    else if url ∈ st.seen_urls then st
    else
      { st with seen_urls := url :: st.seen_urls,
                grouped := addToGrouped st.grouped qname (repo_of it) it,
                kept := st.kept + 1,
                kept_items := st.kept_items ++ [it] }

/-- Processing of one search item (lines 284-316). -/
def process_item (FILTER_LINKED_PR : String) (MAX_TIMELINE_CHECKS : Nat)
    (check : String → Option Int → Bool) (since : Ts) (qname : String)
    (st : LoopSt) (it : Item) : LoopSt :=
  if older_than_window since it then st
  else if pyLower (it.state.getD "") ≠ "open" then st
  else if (it.assignees.getD []) ≠ [] then st
  else
    match linked_pr_step FILTER_LINKED_PR MAX_TIMELINE_CHECKS check st it with
    | (st1, true) => st1
    | (st1, false) => keep_step qname st1 it

/-- State threaded through the per-query loop of `main`.  `query_logs`
is instrumentation: for each query that searched successfully, its
effective name, kept items in order, and kept count. -/
structure RunState where
  timeline_checks : Nat
  invocations : Nat
  grouped : Grouped
  per_query_counts : List (String × Nat)
  query_logs : List (String × List Item × Nat)
deriving Repr

/-- Initial run state (lines 268-271). -/
def initRunState : RunState :=
  { timeline_checks := 0, invocations := 0, grouped := [],
    per_query_counts := [], query_logs := [] }

/-- Processing of one query (lines 273-318).  The search call is an
oracle returning `Except`; a raised search exception is caught per query
(lines 275-279) and the query is skipped, contributing nothing.  The
de-dup set and kept count start empty for every query (lines 281-282). -/
def process_query (FILTER_LINKED_PR : String) (MAX_TIMELINE_CHECKS : Nat)
    (check : String → Option Int → Bool) (since : Ts)
    (search : Query → Except Unit (List Item)) (st : RunState) (q : Query) :
    RunState :=
  let qname := pyOrStr q.name (pyTake q.q 40)
  match search q with
  | .error _ => st
  | .ok items =>
    let init : LoopSt :=
      { timeline_checks := st.timeline_checks, invocations := st.invocations,
        grouped := st.grouped, seen_urls := [], kept := 0, kept_items := [] }
    let fin := items.foldl
      (process_item FILTER_LINKED_PR MAX_TIMELINE_CHECKS check since qname) init
    { timeline_checks := fin.timeline_checks,
      invocations := fin.invocations,
      grouped := fin.grouped,
      per_query_counts := assocSet st.per_query_counts qname fin.kept,
      query_logs := st.query_logs ++ [(qname, fin.kept_items, fin.kept)] }

/-- The whole query loop of `main` over `ALL_QUERIES`. -/
def run_queries (FILTER_LINKED_PR : String) (MAX_TIMELINE_CHECKS : Nat)
    (check : String → Option Int → Bool) (since : Ts)
    (search : Query → Except Unit (List Item)) (queries : List Query) : RunState :=
  queries.foldl
    (process_query FILTER_LINKED_PR MAX_TIMELINE_CHECKS check since search)
    initRunState

/-! ## Report rendering (lines 73-74, 129-227) -/

/-- `plural(n, word)` (lines 73-74). -/
def plural (n : Nat) (word : String) : String :=
  if n = 1 then toString n ++ " " ++ word else toString n ++ " " ++ word ++ "s"

/-- The double-quote character, kept out of character-literal syntax. -/
def quoteChar : Char := Char.ofNat 34

/-- The apostrophe character, kept out of character-literal syntax. -/
def aposChar : Char := Char.ofNat 39

/-- Per-character replacement of Python `html.escape` (quote=True). -/
def escChar (c : Char) : List Char :=
  if c = '&' then "&amp;".data
  else if c = '<' then "&lt;".data
  else if c = '>' then "&gt;".data
  else if c = quoteChar then "&quot;".data
  else if c = aposChar then "&#x27;".data
  else [c]

/-- Concatenated character-wise escaping. -/
def escList : List Char → List Char
  | [] => []
  | c :: cs => escChar c ++ escList cs

/-- Python `html.escape(s)` with its default `quote=True`. -/
def htmlEscape (s : String) : String :=
  String.mk (escList s.data)

/-- Python `str(x)` on an optional string (`None` prints as `"None"`). -/
def pyStrOptS (o : Option String) : String :=
  match o with
  | some s => s
  | none => "None"

/-- Python `str(x)` on an optional int. -/
def pyStrOptI (o : Option Int) : String :=
  match o with
  | some n => toString n
  | none => "None"

/-- Hexadecimal digit value. -/
def hexDigitVal (c : Char) : Option Nat :=
  if '0' ≤ c ∧ c ≤ '9' then some (c.toNat - 48)
  else if 'a' ≤ c ∧ c ≤ 'f' then some (c.toNat - 87)
  else if 'A' ≤ c ∧ c ≤ 'F' then some (c.toNat - 55)
  else none

/-- Value of a non-empty hex-digit run, as `int(s, 16)` accepts colors. -/
def hexValAux (acc : Nat) : List Char → Option Nat
  | [] => some acc
  | c :: cs =>
    match hexDigitVal c with
    | some d => hexValAux (acc * 16 + d) cs
    | none => none

/-- `int(s, 16)` on a color slice: `none` models the `ValueError` raised
on an empty or non-hex slice. -/
def hexVal (l : List Char) : Option Nat :=
  match l with
  | [] => none
  | _ => hexValAux 0 l

/-- `label_span` (lines 129-140).  The float luminance
`0.2126*r + 0.7152*g + 0.0722*b` compared with `160` is modelled exactly,
scaled by 10000 (`2126*r + 7152*g + 722*b` against `1600000`); the
parse-failure fallback `200` becomes `2000000`. -/
def label_span (label : Label) : String :=
  let name := htmlEscape (label.name.getD "")
  let color := pyOrStr label.color "dddddd"
  let lum : Nat :=
    match hexVal (slice color.data 0 2), hexVal (slice color.data 2 4),
        hexVal (slice color.data 4 6) with
    | some r, some g, some b => 2126 * r + 7152 * g + 722 * b
    | _, _, _ => 2000000
  let text_color := if lum > 1600000 then "#000000" else "#ffffff"
  "<span style=\"display:inline-block; padding:2px 6px; margin:2px 4px 2px 0; border-radius:12px; background-color: #"
    ++ color ++ "; color:" ++ text_color
    ++ "; font-size:12px; line-height:18px; font-family:ui-sans-serif,system-ui,Arial\">"
    ++ name ++ "</span>"

/-- One `<tr>` block of `html_table_for_repo` (lines 144-170). -/
def row_html (it : Item) : String :=
  let num := pyStrOptI it.number
  let title := htmlEscape (it.title.getD "")
  let url := pyStrOptS it.html_url
  let updated := it.updated_at.getD ""
  let created := it.created_at.getD ""
  let labels_html := joinSep "" (it.labels.map label_span)
  let state := pyLower (it.state.getD "")
  let assignees := it.assignees.getD []
  let assignee_names :=
    if assignees.isEmpty then "--"
    else joinSep ", " (assignees.map (fun a => a.login.getD ""))
  let title_html := "<a href=\"" ++ url
    ++ "\" style=\"text-decoration:none; color:#0969da;\"><strong>" ++ title
    ++ "</strong></a>"
  "\n          <tr>\n            <td style=\"padding:8px; border:1px solid #ddd; white-space:nowrap;\">\n              <a href=\""
    ++ url ++ "\" style=\"text-decoration:none;\">#" ++ num
    ++ "</a>\n            </td>\n            <td style=\"padding:8px; border:1px solid #ddd;\">"
    ++ title_html
    ++ "</td>\n            <td style=\"padding:8px; border:1px solid #ddd;\">"
    ++ labels_html
    ++ "</td>\n            <td style=\"padding:8px; border:1px solid #ddd; white-space:nowrap;\">"
    ++ assignee_names
    ++ "</td>\n            <td style=\"padding:8px; border:1px solid #ddd; text-transform:capitalize; white-space:nowrap;\">"
    ++ (if state = "" then "â€”" else state)
    ++ "</td>\n            <td style=\"padding:8px; border:1px solid #ddd; white-space:nowrap;\">"
    ++ updated
    ++ "</td>\n            <td style=\"padding:8px; border:1px solid #ddd; white-space:nowrap;\">"
    ++ created ++ "</td>\n          </tr>\n        "

/-- `html_table_for_repo` (lines 142-193). -/
def html_table_for_repo (repo : String) (items : List Item) : String :=
  let rows := items.map row_html
  let repo_link := "https://github.com/" ++ repo
  let header := "<h3 style=\"margin:20px 0 8px; font-family:ui-sans-serif,system-ui,Arial;\"><a href=\""
    ++ repo_link ++ "\" style=\"text-decoration:none; color:#24292f;\">"
    ++ htmlEscape repo ++ "</a></h3>"
  let table := "\n    <table role=\"grid\" style=\"border-collapse:collapse; width:100%; max-width:100%; font-family:ui-sans-serif,system-ui,Arial; font-size:14px;\">\n      <thead>\n        <tr style=\"background:#f6f8fa;\">\n          <th style=\"padding:8px; border:1px solid #ddd; text-align:left;\">Issue</th>\n          <th style=\"padding:8px; border:1px solid #ddd; text-align:left;\">Title</th>\n          <th style=\"padding:8px; border:1px solid #ddd; text-align:left;\">Labels</th>\n          <th style=\"padding:8px; border:1px solid #ddd; text-align:left;\">Assignees</th>\n          <th style=\"padding:8px; border:1px solid #ddd; text-align:left;\">State</th>\n          <th style=\"padding:8px; border:1px solid #ddd; text-align:left;\">Updated</th>\n          <th style=\"padding:8px; border:1px solid #ddd; text-align:left;\">Created</th>\n        </tr>\n      </thead>\n      <tbody>\n        "
    ++ joinSep "" rows ++ "\n      </tbody>\n    </table>\n    "
  header ++ table

/-- Stable ascending insertion into a sorted list of strings. -/
def insortStr (x : String) : List String → List String
  | [] => [x]
  | y :: ys => if x < y then x :: y :: ys else y :: insortStr x ys

/-- Python `sorted(keys)`: code-point lexicographic, ascending. -/
def sortStrs (l : List String) : List String :=
  l.foldr insortStr []

/-- Concatenation of the lists produced for each element, in order. -/
def concatMapL {α β : Type} (f : α → List β) : List α → List β
  | [] => []
  | x :: xs => f x ++ concatMapL f xs

/-- `build_html_report_by_query` (lines 195-208). -/
def build_html_report_by_query (grouped : Grouped) (since_iso : String)
    (counts : List (String × Nat)) : String :=
  if grouped.isEmpty then
    "<div style=\"font-family:ui-sans-serif,system-ui,Arial; font-size:14px;\">No update since: "
      ++ htmlEscape since_iso ++ " </div>"
  else
    let headPart := "<div style=\"margin:0 0 16px; color:#57606a; font-family:ui-sans-serif,system-ui,Arial;\">Time window: since "
      ++ htmlEscape since_iso ++ "</div>"
    let qparts := (sortStrs (grouped.map (fun e => e.1))).map (fun qname =>
      let count := (assocGet counts qname).getD 0
      let repo_map := (assocGet grouped qname).getD []
      "<h2 style=\"margin:12px 0 8px; font-family:ui-sans-serif,system-ui,Arial;\">Query: "
        ++ htmlEscape qname ++ " (" ++ plural count "result" ++ ")</h2>"
        ++ joinSep "" ((sortStrs (repo_map.map (fun e => e.1))).map (fun repo =>
            html_table_for_repo repo ((assocGet repo_map repo).getD []))))
    "<div style=\"font-family:ui-sans-serif,system-ui,Arial; font-size:14px;\">"
      ++ headPart ++ joinSep "" qparts
      ++ "<div style=\"margin-top:16px; color:#57606a;\">-- Powered by Zealot</div></div>"

/-- The three text lines rendered per issue (lines 220-225). -/
def text_item_lines (it : Item) : List String :=
  let labels := joinSep ", " (it.labels.map (fun lb => lb.name.getD ""))
  let joined := joinSep ", " ((it.assignees.getD []).map (fun a => a.login.getD ""))
  let assignees := if joined = "" then "--" else joined
  let state := pyOrStr it.state "--"
  [ "- #" ++ pyStrOptI it.number ++ " " ++ pyStrOptS it.title ++ " ["
      ++ pyStrOptS it.html_url ++ "]",
    "  labels: " ++ labels ++ " | assignees: " ++ assignees ++ " | state: " ++ state,
    "  updated: " ++ it.updated_at.getD "" ++ "  created: " ++ it.created_at.getD "" ]

/-- `build_text_fallback_by_query` (lines 210-227). -/
def build_text_fallback_by_query (grouped : Grouped) (since_iso : String)
    (counts : List (String × Nat)) : String :=
  if grouped.isEmpty then "No update since: " ++ since_iso ++ "\n"
  else
    let lines := ["Github Issue Update since: " ++ since_iso]
      ++ concatMapL (fun qname =>
          let repo_map := (assocGet grouped qname).getD []
          ["\n### Query: " ++ qname ++ " ("
             ++ plural ((assocGet counts qname).getD 0) "result" ++ ")"]
          ++ concatMapL (fun repo =>
               ["\n## " ++ repo]
               ++ concatMapL text_item_lines ((assocGet repo_map repo).getD []))
             (sortStrs (repo_map.map (fun e => e.1))))
        (sortStrs (grouped.map (fun e => e.1)))
      ++ ["\n-- Powered by Zealot"]
    joinSep "\n" lines

/-! ## Delivery (lines 229-261) and the tail of `main` (lines 320-340) -/

/-- Python truthiness of an optional int (`None` and `0` falsy). -/
def truthyI (o : Option Int) : Bool :=
  match o with
  | some n => n ≠ 0
  | none => false

/-- The SMTP-related environment configuration (lines 22-27). -/
structure MailCfg where
  smtp_host : Option String
  smtp_port : Option Int
  smtp_user : Option String
  smtp_pass : Option String
  mail_to : Option String
  mail_from : Option String
deriving DecidableEq, Repr

/-- The completeness test of line 230: `SMTP_HOST and SMTP_USER and
SMTP_PASS and MAIL_TO and MAIL_FROM and SMTP_PORT`. -/
def mail_cfg_complete (c : MailCfg) : Bool :=
  truthyS c.smtp_host && truthyS c.smtp_user && truthyS c.smtp_pass
    && truthyS c.mail_to && truthyS c.mail_from && truthyI c.smtp_port

/-- `send_email_html` (lines 229-248).  `smtp` is the outcome of the
connect/starttls/login/sendmail sequence; the source wraps none of it in
`try`, so a raised SMTP or socket exception propagates to the caller,
modelled by `.error`. -/
def send_email_html (c : MailCfg) (smtp : Except String Unit) : Except String Bool :=
  if !mail_cfg_complete c then .ok false
  else
    match smtp with
    | .error e => .error e
    | .ok _ => .ok true

/-- The Telegram configuration (lines 29-30). -/
structure TgCfg where
  tg_bot_token : Option String
  tg_chat_id : Option String
deriving DecidableEq, Repr

/-- `send_tg` (lines 250-261): the post outcome is caught
(`raise_for_status` inside `try`/`except`) and reported as a boolean. -/
def send_tg (c : TgCfg) (post : Except String Unit) : Bool :=
  if !(truthyS c.tg_bot_token && truthyS c.tg_chat_id) then false
  else
    match post with
    | .ok _ => true
    | .error _ => false

/-- Lines 338-339 of `main`: email first, then Telegram.  An exception
escaping `send_email_html` propagates (there is no enclosing handler in
`main`) and the Telegram attempt never happens, which the `Except` bind
models. -/
def notify_dispatch (mc : MailCfg) (tc : TgCfg) (smtp post : Except String Unit) :
    Except String (Bool × Bool) := do
  let mail_ok ← send_email_html mc smtp
  let tg_ok := send_tg tc post
  .ok (mail_ok, tg_ok)

/-- Observable effects of the tail of `main` (lines 320-340): the two
report files, the optional `GITHUB_OUTPUT` lines, and whether each
delivery channel is invoked at all. -/
structure Effects where
  notify_html : String
  notify_txt : String
  gh_output : Option (List String)
  email_attempted : Bool
  tg_attempted : Bool
  subject : Option String
deriving Repr

/-- The tail of `main` (lines 320-340): render and write both reports,
emit the run-status lines when `GITHUB_OUTPUT` is set, and stop before
any delivery when the total kept count is zero. -/
def main_tail (grouped : Grouped) (since_iso : String)
    (counts : List (String × Nat)) (gh_output_set : Bool) : Effects :=
  let total := (counts.map (fun kv => kv.2)).sum
  let html_report := build_html_report_by_query grouped since_iso counts
  let text_report := build_text_fallback_by_query grouped since_iso counts
  let gh := if gh_output_set then
      some ["HAS_RESULTS=" ++ (if total > 0 then "true" else "false"),
            "TOTAL=" ++ toString total]
    else none
  if total = 0 then
    { notify_html := html_report, notify_txt := text_report, gh_output := gh,
      email_attempted := false, tg_attempted := false, subject := none }
  else
    { notify_html := html_report, notify_txt := text_report, gh_output := gh,
      email_attempted := true, tg_attempted := true,
      subject := some ("[Zealot] " ++ plural total "unassigned open issue"
        ++ " across "
        ++ plural ((counts.filter (fun kv => kv.2 > 0)).length) "query") }

/-- `iso_utc` (lines 70-71): `dt.strftime("%Y-%m-%dT%H:%M:%SZ")`, with
zero-padded fixed-width fields (years up to 9999, as `datetime` allows). -/
def digitChar10 (n : Nat) : Char :=
  Char.ofNat (48 + n % 10)

/-- Two-digit zero-padded decimal field of `strftime`. -/
def pad2 (n : Nat) : String :=
  String.mk [digitChar10 (n / 10), digitChar10 n]

/-- Four-digit zero-padded decimal field of `strftime` (`%Y`). -/
def pad4 (n : Nat) : String :=
  String.mk [digitChar10 (n / 1000), digitChar10 (n / 100), digitChar10 (n / 10),
    digitChar10 n]

/-- `iso_utc(dt)` (lines 70-71). -/
def iso_utc (t : Ts) : String :=
  pad4 t.y ++ "-" ++ pad2 t.mo ++ "-" ++ pad2 t.d ++ "T" ++ pad2 t.h ++ ":"
    ++ pad2 t.mi ++ ":" ++ pad2 t.s ++ "Z"

/-- The characters an `iso_utc` timestamp can contain. -/
def tsAllowedChars : List Char :=
  "0123456789-:TZ".data

/-! ## Concrete fixtures used by the evaluation theorems and witnesses -/

/-- A run window for the concrete runs. -/
def ts2025 : Ts := { y := 2025, mo := 1, d := 1, h := 0, mi := 0, s := 0 }

/-- An open, unassigned issue with a URL. -/
def itemA : Item :=
  { number := some 5, title := some "Fix crash",
    html_url := some "https://github.com/o/x/issues/5",
    repository_url := "https://api.github.com/repos/o/x",
    state := some "open", labels := [], assignees := none,
    created_at := none, updated_at := none }

/-- An open, unassigned issue whose provider state is spelled `"Open"`. -/
def itemCased : Item :=
  { number := some 7, title := some "Cased state",
    html_url := some "https://github.com/o/x/issues/7",
    repository_url := "https://api.github.com/repos/o/x",
    state := some "Open", labels := [], assignees := none,
    created_at := none, updated_at := none }

/-- A literal query from Document A. -/
def qA : Query := { name := some "A", q := "repo:o/x is:issue is:open" }

/-- A search oracle returning the same result list for every query. -/
def constSearch (items : List Item) : Query → Except Unit (List Item) :=
  fun _ => .ok items

/-- A linked-work oracle that always finds an open linked PR. -/
def yesCheck : String → Option Int → Bool := fun _ _ => true

/-- A linked-work oracle that never finds an open linked PR. -/
def noCheck : String → Option Int → Bool := fun _ _ => false

/-- A fully configured SMTP channel. -/
def mailCfgFull : MailCfg :=
  { smtp_host := some "smtp.example.org", smtp_port := some 587,
    smtp_user := some "user", smtp_pass := some "pass",
    mail_to := some "to@example.org", mail_from := some "from@example.org" }

/-- A fully configured Telegram channel. -/
def tgCfgFull : TgCfg := { tg_bot_token := some "token", tg_chat_id := some "42" }

/-- A timeline oracle whose every page request fails (transport error,
HTTP error status, or JSON decode failure). -/
def pagesFailAll : Nat → PageResult := fun _ => .fail

/-- A timeline oracle whose first page parses to `[42]`: valid JSON, but
the event entry is not a dictionary. -/
def pagesMalformed : Nat → PageResult := fun _ => .ok (.arr [.num 42])

/-- URLs of a kept-item list, for the distinctness statements. -/
def urlsOf (l : List Item) : List String :=
  l.map (fun it => it.html_url.getD "")

end Zealot

namespace Zealot

/-! ## Helper lemmas -/

/-- A property preserved by each step of a fold holds at the end. -/
theorem foldl_preserves {α β : Type} {P : β → Prop} {step : β → α → β}
    (h : ∀ st x, P st → P (step st x)) :
    ∀ (l : List α) (st : β), P st → P (l.foldl step st) := by
  intro l
  induction l with
  | nil => exact fun st hst => hst
  | cons x xs ih => exact fun st hst => ih _ (h st x hst)

/-! ## Claim theorems -/

/-- C1: the code contradicts the claim.  Evaluating the embedded `main`
loop at a single open, unassigned issue whose linked-work check returns
`True` shows ONE filter invocation advancing `timeline_checks` by TWO
(line 304 plus the `finally` of line 307), while a `False` result
advances it by one; the claim requires exactly one unit in both cases. -/
theorem c1_budget_double_increment_on_true :
    (run_queries "1" 60 yesCheck ts2025 (constSearch [itemA]) [qA]).invocations = 1
    ∧ (run_queries "1" 60 yesCheck ts2025 (constSearch [itemA]) [qA]).timeline_checks = 2
    ∧ (run_queries "1" 60 noCheck ts2025 (constSearch [itemA]) [qA]).invocations = 1
    ∧ (run_queries "1" 60 noCheck ts2025 (constSearch [itemA]) [qA]).timeline_checks = 1 := by
  refine ⟨rfl, rfl, rfl, rfl⟩

/-- C4: the code contradicts the claim.  With a complete SMTP
configuration, an SMTP exception raised during the connect/login/send
sequence propagates out of `send_email_html` (the source wraps none of it
in `try`), so the failure is raised rather than reported as a boolean,
and the chat-bot attempt — which would have succeeded — never happens. -/
theorem c4_smtp_exception_propagates :
    send_email_html mailCfgFull (.error "SMTPAuthenticationError")
      = .error "SMTPAuthenticationError"
    ∧ notify_dispatch mailCfgFull tgCfgFull (.error "SMTPAuthenticationError") (.ok ())
      = .error "SMTPAuthenticationError"
    ∧ send_tg tgCfgFull (.ok ()) = true := by
  refine ⟨rfl, rfl, rfl⟩

/-- C5 counterexample: a page response that parses as JSON but is not a
list of event dictionaries (here the list `[42]`) makes the check raise
`AttributeError` — the event loop sits outside the source's `try` — so
the check does not return `false` for malformed payloads of every shape. -/
theorem c5_malformed_payload_raises :
    issue_has_open_linked_pr 2 pagesMalformed = .error .attributeError
    ∧ issue_has_open_linked_pr 2 pagesMalformed ≠ .ok false
    ∧ issue_has_open_linked_pr 2 pagesMalformed ≠ .ok true := by
  have h1 : issue_has_open_linked_pr 2 pagesMalformed = .error .attributeError := rfl
  refine ⟨h1, ?_, ?_⟩
  · rw [h1]
    exact fun h => nomatch h
  · rw [h1]
    exact fun h => nomatch h

/-- C5 (amended): a transport error, non-2xx status, or JSON-decode
failure — the `fail` page outcome — at the current page makes the whole
check return `false`, and in particular a check whose every page request
fails returns `false`; only a *parsed* payload of unexpected shape can
raise instead. -/
theorem c5_failures_return_false (pages : Nat → PageResult) (tmp r p : Nat) :
    (pages p = PageResult.fail →
      issue_has_open_linked_pr_from pages 100 (r + 1) p = .ok false)
    ∧ ((∀ k, pages k = PageResult.fail) →
      issue_has_open_linked_pr tmp pages = .ok false) := by
  constructor
  · intro h
    simp [issue_has_open_linked_pr_from, h]
  · intro h
    cases tmp with
    | zero => rfl
    | succ r' =>
      show issue_has_open_linked_pr_from pages 100 (r' + 1) 1 = .ok false
      simp [issue_has_open_linked_pr_from, h 1]

/-- C5 witness: the amended theorem applied to the all-failing oracle. -/
theorem c5_failures_return_false_witness :
    issue_has_open_linked_pr_from pagesFailAll 100 2 1 = .ok false
    ∧ issue_has_open_linked_pr 2 pagesFailAll = .ok false :=
  ⟨(c5_failures_return_false pagesFailAll 2 1 1).1 rfl,
   (c5_failures_return_false pagesFailAll 2 0 0).2 (fun _ => rfl)⟩

/-- A `targets.json` document carrying its own interval and result cap. -/
def cfgB45 : CfgDoc := { interval_minutes := some 45, max_results := some 200 }

/-- C3 counterexample: with no run override and `config.json` absent,
`read_json` injects a default document whose `interval_minutes = 30` /
`max_results = 100`, so Document B's values (45 / 200) are never
consulted — the effective values are the defaults, not Document B's. -/
theorem c3_absent_docA_masks_docB :
    INTERVAL_MIN none none (some cfgB45) = 30
    ∧ cfgB45.interval_minutes = some 45
    ∧ (30 : Int) ≠ 45
    ∧ MAX_RESULTS none none (some cfgB45) = 100
    ∧ cfgB45.max_results = some 200
    ∧ (100 : Int) ≠ 200 := by
  refine ⟨rfl, rfl, by decide, rfl, rfl, by decide⟩

/-- C3 (amended): the effective interval and result cap resolve as: run
override first; else, when Document A's file is absent, the default
document injected for it — whose value coincides with the hard default —
masks Document B entirely; else Document A's value when present and
non-zero; else Document B's value when that file is present with a
non-zero value; else the hard default.  `resolve_amended` spells out that
precedence and both settings agree with it on every input. -/
theorem c3_precedence_amended (e : Option Int) (a b : Option CfgDoc) :
    INTERVAL_MIN e a b = resolve_amended e a b (fun c => c.interval_minutes) 30
    ∧ MAX_RESULTS e a b = resolve_amended e a b (fun c => c.max_results) 100 := by
  constructor
  · cases e with
    | some v => rfl
    | none =>
      cases a with
      | none => rfl
      | some da =>
        rcases hv : da.interval_minutes with _ | v
        · cases b with
          | none => simp [INTERVAL_MIN, resolve_amended, read_json, defaultCfgB, hv, pyOrI]
          | some db =>
            rcases hw : db.interval_minutes with _ | w
            · simp [INTERVAL_MIN, resolve_amended, read_json, hv, hw, pyOrI]
            · by_cases h0 : w = 0 <;>
                simp [INTERVAL_MIN, resolve_amended, read_json, hv, hw, pyOrI, h0]
        · by_cases h0 : v = 0
          · cases b with
            | none => simp [INTERVAL_MIN, resolve_amended, read_json, defaultCfgB, hv, pyOrI, h0]
            | some db =>
              rcases hw : db.interval_minutes with _ | w
              · simp [INTERVAL_MIN, resolve_amended, read_json, hv, hw, pyOrI, h0]
              · by_cases hw0 : w = 0 <;>
                  simp [INTERVAL_MIN, resolve_amended, read_json, hv, hw, pyOrI, h0, hw0]
          · simp [INTERVAL_MIN, resolve_amended, read_json, hv, pyOrI, h0]
  · cases e with
    | some v => rfl
    | none =>
      cases a with
      | none => rfl
      | some da =>
        rcases hv : da.max_results with _ | v
        · cases b with
          | none => simp [MAX_RESULTS, resolve_amended, read_json, defaultCfgB, hv, pyOrI]
          | some db =>
            rcases hw : db.max_results with _ | w
            · simp [MAX_RESULTS, resolve_amended, read_json, hv, hw, pyOrI]
            · by_cases h0 : w = 0 <;>
                simp [MAX_RESULTS, resolve_amended, read_json, hv, hw, pyOrI, h0]
        · by_cases h0 : v = 0
          · cases b with
            | none => simp [MAX_RESULTS, resolve_amended, read_json, defaultCfgB, hv, pyOrI, h0]
            | some db =>
              rcases hw : db.max_results with _ | w
              · simp [MAX_RESULTS, resolve_amended, read_json, hv, hw, pyOrI, h0]
              · by_cases hw0 : w = 0 <;>
                  simp [MAX_RESULTS, resolve_amended, read_json, hv, hw, pyOrI, h0, hw0]
          · simp [MAX_RESULTS, resolve_amended, read_json, hv, pyOrI, h0]

/-- The keep step never touches the budget counters. -/
theorem keep_step_counters (qname : String) (st : LoopSt) (it : Item) :
    (keep_step qname st it).timeline_checks = st.timeline_checks
    ∧ (keep_step qname st it).invocations = st.invocations := by
  unfold keep_step
  cases hu : it.html_url with
  | none => exact ⟨rfl, rfl⟩
  | some url =>
    dsimp only
    split_ifs <;> exact ⟨rfl, rfl⟩

/-- The linked-PR step either leaves the state alone without invoking the
filter, or — only when budget remains — invokes it once, adding two to
the counter on a `True` result and one on a `False` result. -/
theorem linked_pr_step_cases (fp : String) (maxtc : Nat)
    (check : String → Option Int → Bool) (st : LoopSt) (it : Item) :
    linked_pr_step fp maxtc check st it = (st, false)
    ∨ (st.timeline_checks < maxtc
       ∧ (linked_pr_step fp maxtc check st it
            = ({ st with timeline_checks := st.timeline_checks + 2,
                         invocations := st.invocations + 1 }, true)
          ∨ linked_pr_step fp maxtc check st it
            = ({ st with timeline_checks := st.timeline_checks + 1,
                         invocations := st.invocations + 1 }, false))) := by
  unfold linked_pr_step
  split_ifs with hcond hcheck
  · exact .inr ⟨hcond.2, .inl rfl⟩
  · exact .inr ⟨hcond.2, .inr rfl⟩
  · exact .inl rfl

/-- Once the counter has reached the maximum, the linked-PR step is a
no-op (the guard of line 299 blocks the invocation). -/
theorem linked_pr_step_exhausted (fp : String) (maxtc : Nat)
    (check : String → Option Int → Bool) (st : LoopSt) (it : Item)
    (h : maxtc ≤ st.timeline_checks) :
    linked_pr_step fp maxtc check st it = (st, false) := by
  unfold linked_pr_step
  rw [if_neg]
  intro hc
  exact absurd hc.2 (Nat.not_lt.mpr h)

/-- The budget invariant: invocations never outrun the counter nor the
configured maximum. -/
def BudgetInv (maxtc : Nat) (st : LoopSt) : Prop :=
  st.invocations ≤ st.timeline_checks ∧ st.invocations ≤ maxtc

/-- Each per-item step preserves the budget invariant. -/
theorem process_item_budget_inv (fp : String) (maxtc : Nat)
    (check : String → Option Int → Bool) (since : Ts) (qname : String)
    (st : LoopSt) (it : Item) (h : BudgetInv maxtc st) :
    BudgetInv maxtc (process_item fp maxtc check since qname st it) := by
  unfold process_item
  split_ifs with h1 h2 h3
  · exact h
  · exact h
  · exact h
  · rcases linked_pr_step_cases fp maxtc check st it with heq | ⟨hlt, heq | heq⟩ <;>
      rw [heq] <;> dsimp only
    · have hc := keep_step_counters qname st it
      exact ⟨by rw [hc.1, hc.2]; exact h.1, by rw [hc.2]; exact h.2⟩
    · obtain ⟨ha, hb⟩ := h
      refine ⟨?_, ?_⟩
      · show st.invocations + 1 ≤ st.timeline_checks + 2
        omega
      · show st.invocations + 1 ≤ maxtc
        omega
    · have hc := keep_step_counters qname
        { st with timeline_checks := st.timeline_checks + 1,
                  invocations := st.invocations + 1 } it
      obtain ⟨ha, hb⟩ := h
      refine ⟨?_, ?_⟩
      · rw [hc.1, hc.2]
        show st.invocations + 1 ≤ st.timeline_checks + 1
        omega
      · rw [hc.2]
        show st.invocations + 1 ≤ maxtc
        omega

/-- The budget invariant transferred to the run state. -/
def RunBudgetInv (maxtc : Nat) (rs : RunState) : Prop :=
  rs.invocations ≤ rs.timeline_checks ∧ rs.invocations ≤ maxtc

/-- Each per-query step preserves the budget invariant. -/
theorem process_query_budget_inv (fp : String) (maxtc : Nat)
    (check : String → Option Int → Bool) (since : Ts)
    (search : Query → Except Unit (List Item)) (rs : RunState) (q : Query)
    (h : RunBudgetInv maxtc rs) :
    RunBudgetInv maxtc (process_query fp maxtc check since search rs q) := by
  unfold process_query
  cases hs : search q with
  | error e => exact h
  | ok items =>
    dsimp only
    have hfin := foldl_preserves
      (fun st it => process_item_budget_inv fp maxtc check since
        (pyOrStr q.name (pyTake q.q 40)) st it)
      items
      { timeline_checks := rs.timeline_checks, invocations := rs.invocations,
        grouped := rs.grouped, seen_urls := [], kept := 0, kept_items := [] }
      ⟨h.1, h.2⟩
    exact ⟨hfin.1, hfin.2⟩

/-- C2: across a whole run, the number of Linked-Work Filter invocations
never exceeds `MAX_TIMELINE_CHECKS`, and once the budget counter has
reached the maximum the per-item step performs no further invocation. -/
theorem c2_filter_invocations_bounded (fp : String) (maxtc : Nat)
    (check : String → Option Int → Bool) (since : Ts)
    (search : Query → Except Unit (List Item)) (queries : List Query) :
    (run_queries fp maxtc check since search queries).invocations ≤ maxtc
    ∧ (∀ (st : LoopSt) (it : Item) (qname : String),
        maxtc ≤ st.timeline_checks →
        (process_item fp maxtc check since qname st it).invocations
          = st.invocations) := by
  constructor
  · have hinv : RunBudgetInv maxtc (run_queries fp maxtc check since search queries) := by
      unfold run_queries
      exact foldl_preserves
        (fun rs q => process_query_budget_inv fp maxtc check since search rs q)
        queries initRunState ⟨Nat.le_refl 0, Nat.zero_le maxtc⟩
    exact hinv.2
  · intro st it qname hge
    unfold process_item
    split_ifs with h1 h2 h3
    · rfl
    · rfl
    · rfl
    · rw [linked_pr_step_exhausted fp maxtc check st it hge]
      dsimp only
      exact (keep_step_counters qname st it).2

/-- A loop state whose budget counter is already at the maximum. -/
def stExhausted : LoopSt :=
  { timeline_checks := 2, invocations := 2, grouped := [], seen_urls := [],
    kept := 0, kept_items := [] }

/-- C2 witness: the bound applied to a concrete run of three candidate
issues against a budget of two, and the no-further-invocation clause at a
state whose counter equals the maximum. -/
theorem c2_filter_invocations_bounded_witness :
    (run_queries "1" 2 yesCheck ts2025 (constSearch [itemA, itemA, itemA]) [qA]).invocations ≤ 2
    ∧ (process_item "1" 2 yesCheck ts2025 "A" stExhausted itemA).invocations
        = stExhausted.invocations :=
  ⟨(c2_filter_invocations_bounded "1" 2 yesCheck ts2025
      (constSearch [itemA, itemA, itemA]) [qA]).1,
   (c2_filter_invocations_bounded "1" 2 yesCheck ts2025
      (constSearch [itemA, itemA, itemA]) [qA]).2 stExhausted itemA "A" (by decide)⟩

/-- Every item of a grouped report satisfies a property. -/
def GroupedAll (P : Item → Prop) (g : Grouped) : Prop :=
  ∀ e ∈ g, ∀ r ∈ e.2, ∀ x ∈ r.2, P x

/-- Appending a satisfying item into a repository map preserves an
all-items property. -/
theorem addToRepoMap_all {P : Item → Prop} {it : Item} (repo : String)
    (hit : P it) :
    ∀ (m : List (String × List Item)), (∀ r ∈ m, ∀ x ∈ r.2, P x) →
      ∀ r ∈ addToRepoMap m repo it, ∀ x ∈ r.2, P x := by
  intro m
  induction m with
  | nil =>
    intro _ r hr x hx
    simp only [addToRepoMap, List.mem_singleton] at hr
    subst hr
    simp only [List.mem_singleton] at hx
    subst hx
    exact hit
  | cons hd tl ih =>
    rcases hd with ⟨rname, rits⟩
    intro hm r hr x hx
    have hm' : ∀ r ∈ tl, ∀ x ∈ r.2, P x :=
      fun r hr => hm r (List.mem_cons_of_mem _ hr)
    simp only [addToRepoMap] at hr
    split_ifs at hr with he
    · rcases List.mem_cons.mp hr with h1 | h1
      · subst h1
        rcases List.mem_append.mp hx with h2 | h2
        · exact hm ⟨rname, rits⟩ (List.mem_cons_self _ _) x h2
        · simp only [List.mem_singleton] at h2
          subst h2
          exact hit
      · exact hm' r h1 x hx
    · rcases List.mem_cons.mp hr with h1 | h1
      · subst h1
        exact hm ⟨rname, rits⟩ (List.mem_cons_self _ _) x hx
      · exact ih hm' r h1 x hx

/-- Appending a satisfying item into the grouped report preserves an
all-items property. -/
theorem addToGrouped_all {P : Item → Prop} {it : Item} (qname repo : String)
    (hit : P it) :
    ∀ (g : Grouped), GroupedAll P g → GroupedAll P (addToGrouped g qname repo it) := by
  intro g
  induction g with
  | nil =>
    intro _ e he r hr x hx
    simp only [addToGrouped, List.mem_singleton] at he
    subst he
    simp only [List.mem_singleton] at hr
    subst hr
    simp only [List.mem_singleton] at hx
    subst hx
    exact hit
  | cons hd tl ih =>
    rcases hd with ⟨q0, m⟩
    intro hg e he r hr x hx
    have hg' : GroupedAll P tl := fun e he => hg e (List.mem_cons_of_mem _ he)
    simp only [addToGrouped] at he
    split_ifs at he with hq
    · rcases List.mem_cons.mp he with h1 | h1
      · subst h1
        exact addToRepoMap_all repo hit m
          (hg ⟨q0, m⟩ (List.mem_cons_self _ _)) r hr x hx
      · exact hg' e h1 r hr x hx
    · rcases List.mem_cons.mp he with h1 | h1
      · subst h1
        exact hg ⟨q0, m⟩ (List.mem_cons_self _ _) r hr x hx
      · exact ih hg' e h1 r hr x hx

/-- The keep step only ever adds the current item, and only with a
truthy URL. -/
theorem keep_step_grouped_all {P : Item → Prop} (qname : String)
    (st : LoopSt) (it : Item) (hit : truthyS it.html_url = true → P it)
    (hg : GroupedAll P st.grouped) :
    GroupedAll P (keep_step qname st it).grouped := by
  unfold keep_step
  cases hu : it.html_url with
  | none => exact hg
  | some url =>
    dsimp only
    split_ifs with h1 h2
    · exact hg
    · exact hg
    · refine addToGrouped_all qname (repo_of it) (hit ?_) st.grouped hg
      rw [hu]
      simpa [truthyS] using h1

/-- The per-item step only adds the current item to the grouped report,
and only when its lowercased state is `"open"`, its assignee list is
empty, and its URL is truthy. -/
theorem process_item_grouped_all {P : Item → Prop} (fp : String) (maxtc : Nat)
    (check : String → Option Int → Bool) (since : Ts) (qname : String)
    (st : LoopSt) (it : Item)
    (hit : pyLower (it.state.getD "") = "open" → it.assignees.getD [] = [] →
      truthyS it.html_url = true → P it)
    (hg : GroupedAll P st.grouped) :
    GroupedAll P (process_item fp maxtc check since qname st it).grouped := by
  unfold process_item
  split_ifs with h1 h2 h3
  · exact hg
  · exact hg
  · exact hg
  · rcases linked_pr_step_cases fp maxtc check st it with heq | ⟨_, heq | heq⟩ <;>
      rw [heq] <;> dsimp only
    · exact keep_step_grouped_all qname st it
        (fun ht => hit (not_ne_iff.mp h2) (not_ne_iff.mp h3) ht) hg
    · exact hg
    · exact keep_step_grouped_all qname
        { st with timeline_checks := st.timeline_checks + 1,
                  invocations := st.invocations + 1 } it
        (fun ht => hit (not_ne_iff.mp h2) (not_ne_iff.mp h3) ht) hg

/-- The per-query step preserves an all-items property of the grouped
report, provided kept items satisfy it. -/
theorem process_query_grouped_all {P : Item → Prop} (fp : String) (maxtc : Nat)
    (check : String → Option Int → Bool) (since : Ts)
    (search : Query → Except Unit (List Item))
    (hit : ∀ it : Item, pyLower (it.state.getD "") = "open" →
      it.assignees.getD [] = [] → truthyS it.html_url = true → P it)
    (rs : RunState) (q : Query) (hg : GroupedAll P rs.grouped) :
    GroupedAll P (process_query fp maxtc check since search rs q).grouped := by
  unfold process_query
  cases hs : search q with
  | error e => exact hg
  | ok items =>
    dsimp only
    exact foldl_preserves
      (fun st it h => process_item_grouped_all fp maxtc check since
        (pyOrStr q.name (pyTake q.q 40)) st it (hit it) h)
      items
      { timeline_checks := rs.timeline_checks, invocations := rs.invocations,
        grouped := rs.grouped, seen_urls := [], kept := 0, kept_items := [] }
      hg

/-- Every item the whole run keeps into the grouped report satisfies any
property implied by the keep conditions. -/
theorem run_queries_grouped_all {P : Item → Prop} (fp : String) (maxtc : Nat)
    (check : String → Option Int → Bool) (since : Ts)
    (search : Query → Except Unit (List Item)) (queries : List Query)
    (hit : ∀ it : Item, pyLower (it.state.getD "") = "open" →
      it.assignees.getD [] = [] → truthyS it.html_url = true → P it) :
    GroupedAll P (run_queries fp maxtc check since search queries).grouped := by
  unfold run_queries
  exact foldl_preserves
    (fun rs q h => process_query_grouped_all fp maxtc check since search hit rs q h)
    queries initRunState (fun e he => absurd he (List.not_mem_nil e))

/-- The query-local bookkeeping invariant: kept URLs are distinct and
all recorded in the de-dup set, kept items carry truthy URLs, and the
kept counter equals the number of kept items. -/
def LoopLogInv (st : LoopSt) : Prop :=
  (urlsOf st.kept_items).Nodup
  ∧ (∀ u ∈ urlsOf st.kept_items, u ∈ st.seen_urls)
  ∧ (∀ x ∈ st.kept_items, truthyS x.html_url = true)
  ∧ st.kept = st.kept_items.length

/-- The keep step preserves the bookkeeping invariant: it refuses falsy
and already-seen URLs and records the URL it accepts. -/
theorem keep_step_log_inv (qname : String) (st : LoopSt) (it : Item)
    (h : LoopLogInv st) : LoopLogInv (keep_step qname st it) := by
  obtain ⟨hnd, hsub, htr, hlen⟩ := h
  unfold keep_step
  cases hu : it.html_url with
  | none => exact ⟨hnd, hsub, htr, hlen⟩
  | some url =>
    dsimp only
    split_ifs with h1 h2
    · exact ⟨hnd, hsub, htr, hlen⟩
    · exact ⟨hnd, hsub, htr, hlen⟩
    · have hurl : url ∉ urlsOf st.kept_items := fun hm => h2 (hsub url hm)
      have hmap : urlsOf (st.kept_items ++ [it]) = urlsOf st.kept_items ++ [url] := by
        simp [urlsOf, hu]
      refine ⟨?_, ?_, ?_, ?_⟩
      · show (urlsOf (st.kept_items ++ [it])).Nodup
        rw [hmap]
        refine List.Nodup.append hnd (List.nodup_singleton url) ?_
        intro a ha hb
        simp only [List.mem_singleton] at hb
        subst hb
        exact hurl ha
      · show ∀ u ∈ urlsOf (st.kept_items ++ [it]), u ∈ url :: st.seen_urls
        rw [hmap]
        intro u hm
        rcases List.mem_append.mp hm with hm | hm
        · exact List.mem_cons_of_mem _ (hsub u hm)
        · simp only [List.mem_singleton] at hm
          subst hm
          exact List.mem_cons_self _ _
      · intro x hx
        rcases List.mem_append.mp hx with hx | hx
        · exact htr x hx
        · simp only [List.mem_singleton] at hx
          subst hx
          rw [hu]
          simpa [truthyS] using h1
      · show st.kept + 1 = (st.kept_items ++ [it]).length
        simp [hlen]

/-- The per-item step preserves the bookkeeping invariant. -/
theorem process_item_log_inv (fp : String) (maxtc : Nat)
    (check : String → Option Int → Bool) (since : Ts) (qname : String)
    (st : LoopSt) (it : Item) (h : LoopLogInv st) :
    LoopLogInv (process_item fp maxtc check since qname st it) := by
  unfold process_item
  split_ifs with h1 h2 h3
  · exact h
  · exact h
  · exact h
  · rcases linked_pr_step_cases fp maxtc check st it with heq | ⟨_, heq | heq⟩ <;>
      rw [heq] <;> dsimp only
    · exact keep_step_log_inv qname st it h
    · exact h
    · exact keep_step_log_inv qname
        { st with timeline_checks := st.timeline_checks + 1,
                  invocations := st.invocations + 1 } it h

/-- Every per-query log entry of the run is well-formed: distinct kept
URLs, truthy kept URLs, and a kept count equal to the kept-list length. -/
def RunLogsInv (rs : RunState) : Prop :=
  ∀ entry ∈ rs.query_logs,
    (urlsOf entry.2.1).Nodup
    ∧ (∀ x ∈ entry.2.1, truthyS x.html_url = true)
    ∧ entry.2.2 = entry.2.1.length

/-- The per-query step preserves well-formedness of the logs: every
query starts from an empty de-dup set and empty kept list. -/
theorem process_query_logs_inv (fp : String) (maxtc : Nat)
    (check : String → Option Int → Bool) (since : Ts)
    (search : Query → Except Unit (List Item)) (rs : RunState) (q : Query)
    (h : RunLogsInv rs) :
    RunLogsInv (process_query fp maxtc check since search rs q) := by
  unfold process_query
  cases hs : search q with
  | error e => exact h
  | ok items =>
    dsimp only
    intro entry he
    rcases List.mem_append.mp he with he | he
    · exact h entry he
    · simp only [List.mem_singleton] at he
      subst he
      have hfin : LoopLogInv (items.foldl
          (process_item fp maxtc check since (pyOrStr q.name (pyTake q.q 40)))
          { timeline_checks := rs.timeline_checks, invocations := rs.invocations,
            grouped := rs.grouped, seen_urls := [], kept := 0, kept_items := [] }) :=
        foldl_preserves
          (fun st it hst => process_item_log_inv fp maxtc check since
            (pyOrStr q.name (pyTake q.q 40)) st it hst)
          items _
          ⟨List.nodup_nil, fun u hu => absurd hu (List.not_mem_nil u),
           fun x hx => absurd hx (List.not_mem_nil x), rfl⟩
      exact ⟨hfin.1, hfin.2.2.1, hfin.2.2.2⟩

/-- All log entries of a whole run are well-formed. -/
theorem run_queries_logs_inv (fp : String) (maxtc : Nat)
    (check : String → Option Int → Bool) (since : Ts)
    (search : Query → Except Unit (List Item)) (queries : List Query) :
    RunLogsInv (run_queries fp maxtc check since search queries) := by
  unfold run_queries
  exact foldl_preserves
    (fun rs q h => process_query_logs_inv fp maxtc check since search rs q h)
    queries initRunState (fun e he => absurd he (List.not_mem_nil e))

/-- C6 counterexample: a search item whose provider spells the state
`"Open"` passes the lowercased comparison of line 293 and is kept with
its original casing, so a kept issue need not have state exactly
`"open"`. -/
theorem c6_kept_state_not_literal_open :
    (run_queries "0" 60 noCheck ts2025 (constSearch [itemCased]) [qA]).grouped
      = [("A", [("o/x", [itemCased])])]
    ∧ itemCased.state = some "Open"
    ∧ itemCased.state ≠ some "open" := by
  refine ⟨rfl, rfl, by decide⟩

/-- C6 (amended): every issue kept into the grouped report has a state
that lowercases to `"open"` (the comparison of line 293 is on the
lowercased state, the stored item keeps the provider's casing) and an
empty assignee set. -/
theorem c6_kept_open_and_unassigned (fp : String) (maxtc : Nat)
    (check : String → Option Int → Bool) (since : Ts)
    (search : Query → Except Unit (List Item)) (queries : List Query)
    (qe : String × List (String × List Item)) (re : String × List Item) (it : Item)
    (hq : qe ∈ (run_queries fp maxtc check since search queries).grouped)
    (hr : re ∈ qe.2) (hx : it ∈ re.2) :
    pyLower (it.state.getD "") = "open" ∧ it.assignees.getD [] = [] :=
  run_queries_grouped_all
    (P := fun x => pyLower (x.state.getD "") = "open" ∧ x.assignees.getD [] = [])
    fp maxtc check since search queries
    (fun _ h1 h2 _ => ⟨h1, h2⟩) qe hq re hr it hx

/-- C6 witness: the amended statement at a concrete one-issue run. -/
theorem c6_kept_open_and_unassigned_witness :
    pyLower (itemA.state.getD "") = "open" ∧ itemA.assignees.getD [] = [] :=
  c6_kept_open_and_unassigned "0" 60 noCheck ts2025 (constSearch [itemA]) [qA]
    ("A", [("o/x", [itemA])]) ("o/x", [itemA]) itemA
    (by decide) (by decide) (by decide)

/-- C7: within each query of a run, the URLs of the kept issues are
pairwise distinct — the de-dup set starts empty for every query and an
issue whose URL was already kept for that query is skipped. -/
theorem c7_kept_urls_pairwise_distinct (fp : String) (maxtc : Nat)
    (check : String → Option Int → Bool) (since : Ts)
    (search : Query → Except Unit (List Item)) (queries : List Query)
    (entry : String × List Item × Nat)
    (he : entry ∈ (run_queries fp maxtc check since search queries).query_logs) :
    (urlsOf entry.2.1).Nodup :=
  (run_queries_logs_inv fp maxtc check since search queries entry he).1

/-- C7 witness: a query whose raw results repeat the same issue (same
URL) keeps it exactly once, and the theorem applies to that run. -/
theorem c7_kept_urls_pairwise_distinct_witness :
    (run_queries "0" 60 noCheck ts2025 (constSearch [itemA, itemA]) [qA]).query_logs
      = [("A", [itemA], 1)]
    ∧ (urlsOf [itemA]).Nodup :=
  ⟨rfl, c7_kept_urls_pairwise_distinct "0" 60 noCheck ts2025
    (constSearch [itemA, itemA]) [qA] ("A", [itemA], 1) (by decide)⟩

/-- C9: an issue whose `html_url` is missing or empty is silently
discarded — every kept issue (in the per-query logs and in the grouped
report) has a truthy URL, and each query's kept count equals the length
of its kept list, so discarded issues are never counted. -/
theorem c9_urlless_items_never_kept (fp : String) (maxtc : Nat)
    (check : String → Option Int → Bool) (since : Ts)
    (search : Query → Except Unit (List Item)) (queries : List Query) :
    (∀ entry ∈ (run_queries fp maxtc check since search queries).query_logs,
      (∀ x ∈ entry.2.1, truthyS x.html_url = true) ∧ entry.2.2 = entry.2.1.length)
    ∧ GroupedAll (fun x => truthyS x.html_url = true)
        (run_queries fp maxtc check since search queries).grouped :=
  ⟨fun entry he =>
    ⟨(run_queries_logs_inv fp maxtc check since search queries entry he).2.1,
     (run_queries_logs_inv fp maxtc check since search queries entry he).2.2⟩,
   run_queries_grouped_all (P := fun x => truthyS x.html_url = true)
    fp maxtc check since search queries (fun _ _ _ h3 => h3)⟩

/-- C9 witness: the statement at a concrete one-issue run. -/
theorem c9_urlless_items_never_kept_witness :
    truthyS itemA.html_url = true ∧ (1 : Nat) = [itemA].length :=
  ⟨((c9_urlless_items_never_kept "0" 60 noCheck ts2025 (constSearch [itemA]) [qA]).1
      ("A", [itemA], 1) (by decide)).1 itemA (by decide),
   ((c9_urlless_items_never_kept "0" 60 noCheck ts2025 (constSearch [itemA]) [qA]).1
      ("A", [itemA], 1) (by decide)).2⟩

/-- Every character an `iso_utc` timestamp contains is a digit or one of
`-`, `:`, `T`, `Z`. -/
theorem digitChar10_mem (n : Nat) : digitChar10 n ∈ tsAllowedChars := by
  have hlt : n % 10 < 10 := Nat.mod_lt _ (by decide)
  have hall : ∀ m : Fin 10, Char.ofNat (48 + m.val) ∈ tsAllowedChars := by decide
  exact hall ⟨n % 10, hlt⟩

/-- The character list of an `iso_utc` timestamp, spelled out. -/
theorem iso_utc_data (t : Ts) : (iso_utc t).data =
    [digitChar10 (t.y / 1000), digitChar10 (t.y / 100), digitChar10 (t.y / 10),
     digitChar10 t.y, '-', digitChar10 (t.mo / 10), digitChar10 t.mo, '-',
     digitChar10 (t.d / 10), digitChar10 t.d, 'T', digitChar10 (t.h / 10),
     digitChar10 t.h, ':', digitChar10 (t.mi / 10), digitChar10 t.mi, ':',
     digitChar10 (t.s / 10), digitChar10 t.s, 'Z'] := rfl

/-- All characters of an `iso_utc` timestamp are allowed ones. -/
theorem iso_utc_chars (t : Ts) : ∀ c ∈ (iso_utc t).data, c ∈ tsAllowedChars := by
  intro c hc
  rw [iso_utc_data] at hc
  simp only [List.mem_cons, List.not_mem_nil, or_false] at hc
  rcases hc with h|h|h|h|h|h|h|h|h|h|h|h|h|h|h|h|h|h|h|h <;> subst h <;>
    first
      | exact digitChar10_mem _
      | decide

/-- Allowed timestamp characters are fixed by `html.escape`. -/
theorem escChar_allowed : ∀ c ∈ tsAllowedChars, escChar c = [c] := by decide

/-- Escaping is the identity on strings of fixed characters. -/
theorem escList_id : ∀ l : List Char, (∀ c ∈ l, escChar c = [c]) → escList l = l := by
  intro l
  induction l with
  | nil => intro _; rfl
  | cons c cs ih =>
    intro h
    show escChar c ++ escList cs = c :: cs
    rw [h c (List.mem_cons_self _ _), ih (fun x hx => h x (List.mem_cons_of_mem _ hx))]
    rfl

/-- The hash character marks issue rows in both renderings and does not
occur in a timestamp. -/
theorem hash_not_allowed : '#' ∉ tsAllowedChars := by decide

/-- The fixed prefix of the empty-report HTML message. -/
def noResultsHtmlPre : String :=
  "<div style=\"font-family:ui-sans-serif,system-ui,Arial; font-size:14px;\">No update since: "

/-- The fixed suffix of the empty-report HTML message. -/
def noResultsHtmlSuf : String := " </div>"

/-- The fixed prefix of the empty-report text message. -/
def noResultsTextPre : String := "No update since: "

/-- String concatenation concatenates the character lists. -/
theorem strData_append (s t : String) : (s ++ t).data = s.data ++ t.data := by
  cases s
  cases t
  rfl

/-- C8: for every run window, rendering an empty grouped report yields,
in both formats, exactly the single no-results message; the literal
timestamp occurs in both outputs (escaping fixes it), and neither output
contains a `#` character — present in every rendered issue row — so no
issue rows are rendered. -/
theorem c8_empty_report_rendering (t : Ts) (counts : List (String × Nat)) :
    build_html_report_by_query [] (iso_utc t) counts
      = noResultsHtmlPre ++ iso_utc t ++ noResultsHtmlSuf
    ∧ build_text_fallback_by_query [] (iso_utc t) counts
      = noResultsTextPre ++ iso_utc t ++ "\n"
    ∧ (∃ pre suf : List Char,
        pre ++ (iso_utc t).data ++ suf
          = (build_html_report_by_query [] (iso_utc t) counts).data)
    ∧ (∃ pre suf : List Char,
        pre ++ (iso_utc t).data ++ suf
          = (build_text_fallback_by_query [] (iso_utc t) counts).data)
    ∧ '#' ∉ (build_html_report_by_query [] (iso_utc t) counts).data
    ∧ '#' ∉ (build_text_fallback_by_query [] (iso_utc t) counts).data := by
  have hesc : htmlEscape (iso_utc t) = iso_utc t := by
    unfold htmlEscape
    rw [escList_id _ (fun c hc => escChar_allowed c (iso_utc_chars t c hc))]
  have h1 : build_html_report_by_query [] (iso_utc t) counts
      = noResultsHtmlPre ++ iso_utc t ++ noResultsHtmlSuf := by
    have h0 : build_html_report_by_query [] (iso_utc t) counts
        = noResultsHtmlPre ++ htmlEscape (iso_utc t) ++ noResultsHtmlSuf := rfl
    rw [h0, hesc]
  have h2 : build_text_fallback_by_query [] (iso_utc t) counts
      = noResultsTextPre ++ iso_utc t ++ "\n" := rfl
  have hdata1 : (build_html_report_by_query [] (iso_utc t) counts).data
      = noResultsHtmlPre.data ++ (iso_utc t).data ++ noResultsHtmlSuf.data := by
    rw [h1, strData_append, strData_append]
  have hdata2 : (build_text_fallback_by_query [] (iso_utc t) counts).data
      = noResultsTextPre.data ++ (iso_utc t).data ++ "\n".data := by
    rw [h2, strData_append, strData_append]
  refine ⟨h1, h2, ⟨noResultsHtmlPre.data, noResultsHtmlSuf.data, hdata1.symm⟩,
    ⟨noResultsTextPre.data, "\n".data, hdata2.symm⟩, ?_, ?_⟩
  · rw [hdata1]
    intro hmem
    rcases List.mem_append.mp hmem with hm | hm
    · rcases List.mem_append.mp hm with hm | hm
      · exact absurd hm (by decide)
      · exact hash_not_allowed (iso_utc_chars t _ hm)
    · exact absurd hm (by decide)
  · rw [hdata2]
    intro hmem
    rcases List.mem_append.mp hmem with hm | hm
    · rcases List.mem_append.mp hm with hm | hm
      · exact absurd hm (by decide)
      · exact hash_not_allowed (iso_utc_chars t _ hm)
    · exact absurd hm (by decide)

/-- C10: when the total kept count is zero, neither delivery channel is
attempted, both rendered reports are still produced for writing, and the
run-status lines still carry `HAS_RESULTS=false` and `TOTAL=0` whenever
`GITHUB_OUTPUT` is configured. -/
theorem c10_zero_total_no_delivery (grouped : Grouped) (since_iso : String)
    (counts : List (String × Nat)) (ghset : Bool)
    (h : (counts.map (fun kv => kv.2)).sum = 0) :
    (main_tail grouped since_iso counts ghset).email_attempted = false
    ∧ (main_tail grouped since_iso counts ghset).tg_attempted = false
    ∧ (main_tail grouped since_iso counts ghset).notify_html
        = build_html_report_by_query grouped since_iso counts
    ∧ (main_tail grouped since_iso counts ghset).notify_txt
        = build_text_fallback_by_query grouped since_iso counts
    ∧ (ghset = true →
        (main_tail grouped since_iso counts ghset).gh_output
          = some ["HAS_RESULTS=false", "TOTAL=0"]) := by
  unfold main_tail
  simp only [h]
  refine ⟨rfl, rfl, rfl, rfl, ?_⟩
  intro hg
  subst hg
  rfl

/-- C10 witness: the concrete empty run with `GITHUB_OUTPUT` set. -/
theorem c10_zero_total_no_delivery_witness :
    (main_tail [] "2025-01-01T00:00:00Z" [] true).email_attempted = false
    ∧ (main_tail [] "2025-01-01T00:00:00Z" [] true).tg_attempted = false
    ∧ (main_tail [] "2025-01-01T00:00:00Z" [] true).gh_output
        = some ["HAS_RESULTS=false", "TOTAL=0"] :=
  ⟨(c10_zero_total_no_delivery [] "2025-01-01T00:00:00Z" [] true rfl).1,
   (c10_zero_total_no_delivery [] "2025-01-01T00:00:00Z" [] true rfl).2.1,
   (c10_zero_total_no_delivery [] "2025-01-01T00:00:00Z" [] true rfl).2.2.2.2 rfl⟩

end Zealot
